import Mathlib

/-!
Verification of the Langflow A2A agent executor (src/agent_executor.py).

The development shallowly embeds the executor:
* `Json` models untyped Python/JSON values; `pyGet`, `pyTruthy`, `pyLen`,
  `pyIndex0` model the dynamic operations the source performs on them,
  returning `Except String _` where Python would raise.
* `extractBody` embeds the body of the try block of
  `LangflowAgentExecutor._extract_message_text`; `extract_message_text`
  embeds the whole method, its except clause included.
* `raise_for_status` models `requests.Response.raise_for_status` (raises
  for 4xx and 5xx statuses only); `callLangflowOnResponse` embeds the
  part of `_call_langflow` that handles a received HTTP response.
* `mkExecutor` embeds `LangflowAgentExecutor.__init__`; `rstripSlash`
  embeds `langflow_url.rstrip of the slash character`.
* `execute` embeds `LangflowAgentExecutor.execute` as a function from the
  request context, the fresh identifiers that `new_task` would mint, and
  the outcome of the single `_call_langflow` invocation, to the list of
  events enqueued, the number of calls made and the exception (if any)
  escaping the method.  `cancel` embeds `LangflowAgentExecutor.cancel`.
-/

/-- Untyped JSON / Python value. -/
inductive Json where
  | null : Json
  | bool (b : Bool) : Json
  | num (n : Int) : Json
  | str (s : String) : Json
  | arr (elems : List Json) : Json
  | obj (fields : List (String × Json)) : Json

/-- Python truthiness of a JSON value. -/
def pyTruthy : Json → Bool
  | .null => false
  | .bool b => b
  | .num n => n != 0
  | .str s => s != ""
  | .arr l => !l.isEmpty
  | .obj l => !l.isEmpty

/-- Python `len`, raising `TypeError` on unsized values. -/
def pyLen : Json → Except String Nat
  | .str s => .ok s.length
  | .arr l => .ok l.length
  | .obj l => .ok l.length
  | _ => .error "TypeError: object has no len"

/-- Python subscript `x[0]`, raising where Python would. -/
def pyIndex0 : Json → Except String Json
  | .arr (x :: _) => .ok x
  | .arr [] => .error "IndexError: list index out of range"
  | .str s =>
    match s.toList with
    | c :: _ => .ok (.str (String.mk [c]))
    | [] => .error "IndexError: string index out of range"
  | .obj _ => .error "KeyError: 0"
  | _ => .error "TypeError: object is not subscriptable"

/-- Python `x.get(key, default)`: defined on dicts, `AttributeError` otherwise. -/
def pyGet (j : Json) (key : String) (dflt : Json) : Except String Json :=
  match j with
  | .obj fields => .ok ((fields.lookup key).getD dflt)
  | _ => .error ("AttributeError: no method get, key " ++ key)

/-- The fixed fallback string of `_extract_message_text`. -/
def noMessageFallback : String := "No message text found in response"

/-- Sequencing of possibly raising Python operations: a raised exception
propagates past the rest of the computation. -/
def ebind {α β : Type} (x : Except String α) (f : α → Except String β) :
    Except String β :=
  match x with
  | .error e => .error e
  | .ok v => f v

@[simp] theorem ebind_ok {α β : Type} (v : α) (f : α → Except String β) :
    ebind (.ok v) f = f v := rfl

@[simp] theorem ebind_error {α β : Type} (e : String)
    (f : α → Except String β) : ebind (.error e) f = .error e := rfl

/-- Body of the try block of `_extract_message_text` (agent_executor.py lines
154 to 167), navigating the response; an `error` is a Python exception
escaping the try block. -/
def extractBody (response : Json) : Except String Json :=
  ebind (pyGet response "outputs" (.arr [])) (fun outputs =>
  if pyTruthy outputs then
    ebind (pyLen outputs) (fun n =>
    if 0 < n then
      ebind (pyIndex0 outputs) (fun first_output =>
      ebind (pyGet first_output "outputs" (.arr [])) (fun results =>
      if pyTruthy results then
        ebind (pyLen results) (fun m =>
        if 0 < m then
          ebind (pyIndex0 results) (fun first_result =>
          ebind (pyGet first_result "results" (.obj [])) (fun interim =>
          ebind (pyGet interim "message" (.obj [])) (fun message_data =>
          ebind (pyGet message_data "text" (.str "")) (fun text =>
          if pyTruthy text then .ok text
          else .ok (.str noMessageFallback)))))
        else .ok (.str noMessageFallback))
      else .ok (.str noMessageFallback)))
    else .ok (.str noMessageFallback))
  else .ok (.str noMessageFallback))

/-- `LangflowAgentExecutor._extract_message_text` (agent_executor.py lines
151 to 171): the try body with its except clause, which converts any
exception into the fallback string embedding the error description. -/
def extract_message_text (response : Json) : Json :=
  match extractBody response with
  | .ok v => v
  | .error e => .str ("Error extracting response: " ++ e)

/-- The family of responses singled out by the spec as returning the fixed
fallback: a dict whose `outputs` is missing or an empty array, or whose
first output group has its `outputs` missing or empty, or whose first
result lacks the leaf `results.message.text` (fields missing along the
chain, or the leaf text equal to the empty string). -/
def missingLeaf : Json → Bool
  | .obj fs =>
    match fs.lookup "outputs" with
    | none => true
    | some (.arr []) => true
    | some (.arr (o0 :: _)) =>
      match o0 with
      | .obj gs =>
        match gs.lookup "outputs" with
        | none => true
        | some (.arr []) => true
        | some (.arr (r0 :: _)) =>
          match r0 with
          | .obj hs =>
            match hs.lookup "results" with
            | none => true
            | some (.obj rs) =>
              match rs.lookup "message" with
              | none => true
              | some (.obj ms) =>
                match ms.lookup "text" with
                | none => true
                | some (.str "") => true
                | some _ => false
              | some _ => false
            | some _ => false
          | _ => false
        | some _ => false
      | _ => false
    | some _ => false
  | _ => false

/-- Field lookup in a JSON object (`none` when the value is not an object
or the key is absent); used to state hypotheses about response shapes. -/
def jGet (j : Json) (key : String) : Option Json :=
  match j with
  | .obj fields => fields.lookup key
  | _ => none

/-! ## The Workflow Client: `_call_langflow` -/

/-- An HTTP response as `_call_langflow` sees it: the status code and the
outcome of `response.json()` (`error` when the body is not valid JSON,
in which case Python raises `ValueError`). -/
structure HttpResponse where
  statusCode : Nat
  jsonBody : Except String Json

/-- `requests.Response.raise_for_status`, as the requests library defines
it: raises `HTTPError` exactly for statuses in 400 to 599. -/
def raise_for_status (r : HttpResponse) : Except String Unit :=
  if 400 ≤ r.statusCode ∧ r.statusCode < 500 then
    .error ("Client Error for url, status " ++ toString r.statusCode)
  else if 500 ≤ r.statusCode ∧ r.statusCode < 600 then
    .error ("Server Error for url, status " ++ toString r.statusCode)
  else .ok ()

/-- The part of `_call_langflow` (agent_executor.py lines 136 to 142) that
handles a received HTTP response: `raise_for_status`, then parse the body
as JSON and return the result; both failures propagate to the caller via
the re-raising except clauses. -/
def callLangflowOnResponse (r : HttpResponse) : Except String Json :=
  match raise_for_status r with
  | .error e => .error e
  | .ok _ => r.jsonBody

/-- `s.rstrip` with the slash character: remove every trailing slash. -/
def rstripSlash (s : String) : String :=
  String.mk ((s.toList.reverse.dropWhile (fun c => c = '/')).reverse)

/-- The executor state set up by `__init__`. -/
structure ExecutorState where
  langflow_url : String
  api_key : Option String

/-- `LangflowAgentExecutor.__init__` (agent_executor.py lines 20 to 24):
reject a falsy url, store the url with trailing slashes stripped. -/
def mkExecutor (langflow_url : String) (api_key : Option String) :
    Except String ExecutorState :=
  if langflow_url = "" then .error "langflow_url is required"
  else .ok { langflow_url := rstripSlash langflow_url, api_key := api_key }

/-- The URL `_call_langflow` passes to `requests.post` (agent_executor.py
line 113 and line 136): exactly the stored `self.langflow_url`. -/
def postUrl (ex : ExecutorState) : String := ex.langflow_url

/-! ## The orchestrator: `execute` and `cancel` -/

/-- Task states from `a2a.types.TaskState` used by this executor. -/
inductive AgentTaskState where
  | submitted
  | working
  | completed
  | failed
  | canceled
deriving DecidableEq

/-- A task record; the executor only reads `id` and `contextId`. -/
structure AgentTask where
  id : String
  contextId : String
deriving DecidableEq

/-- The inbound message of the request context, reduced to the fields
`new_task` consumes (`none` standing for an unset or empty identifier). -/
structure InboundMessage where
  taskId : Option String
  contextId : Option String
deriving DecidableEq

/-- The request context as `execute` consumes it: `message`,
`current_task`, and the text `get_user_input` returns. -/
structure AgentRequestContext where
  message : Option InboundMessage
  currentTask : Option AgentTask
  userInput : String

/-- A message built by `new_agent_text_message(text, context_id, task_id)`. -/
structure AgentTextMessage where
  text : String
  contextId : String
  taskId : String

/-- An object enqueued on the event queue by `execute`: the newly created
`Task` itself, a `TaskStatusUpdateEvent`, or a `TaskArtifactUpdateEvent`
(which carries no `final` flag in `a2a.types`). -/
inductive AgentEvent where
  | newTask (t : AgentTask)
  | statusUpdate (taskId contextId : String) (state : AgentTaskState)
      (message : Option AgentTextMessage) (final : Bool)
  | artifactUpdate (taskId contextId : String) (name description : String)
      (text : Json)

/-- Pythonic `a or b` on an optional string: the default replaces both an
absent and an empty (falsy) value, as in `a2a.utils.new_task`. -/
def pyOrStr (o : Option String) (dflt : String) : String :=
  match o with
  | some s => if s = "" then dflt else s
  | none => dflt

/-- `a2a.utils.new_task(message)`: a Task whose id and contextId come from
the message when truthy, else freshly minted uuid4 strings (passed here as
the explicit `freshTaskId` and `freshContextId`). -/
def new_task (m : InboundMessage) (freshTaskId freshContextId : String) :
    AgentTask :=
  { id := pyOrStr m.taskId freshTaskId
    contextId := pyOrStr m.contextId freshContextId }

/-- The working status event of agent_executor.py lines 40 to 54. -/
def workingEvent (t : AgentTask) : AgentEvent :=
  .statusUpdate t.id t.contextId .working
    (some { text := "Processing your request with Langflow...",
            contextId := t.contextId, taskId := t.id }) false

/-- The artifact event of agent_executor.py lines 64 to 74. -/
def artifactEvent (t : AgentTask) (query : String) (text : Json) :
    AgentEvent :=
  .artifactUpdate t.id t.contextId "Langflow Response"
    ("Response from Langflow for query: " ++ query) text

/-- The completed status event of agent_executor.py lines 77 to 84. -/
def completedEvent (t : AgentTask) : AgentEvent :=
  .statusUpdate t.id t.contextId .completed none true

/-- The failed status event of the except clause, agent_executor.py lines
90 to 104; `err` is the description `str(e)` of the caught exception. -/
def failedEvent (t : AgentTask) (err : String) : AgentEvent :=
  .statusUpdate t.id t.contextId .failed
    (some { text := "Error processing request: " ++ err,
            contextId := t.contextId, taskId := t.id }) true

/-- The try block of `execute` with its except clause (agent_executor.py
lines 38 to 104), given the outcome of the single `_call_langflow` call:
on success, working then artifact (with the extracted text) then
completed; on an exception, the except clause follows the already
enqueued working event with the failed event. -/
def tryBody (t : AgentTask) (query : String)
    (callResult : Except String Json) : List AgentEvent :=
  match callResult with
  | .ok resp =>
    [workingEvent t, artifactEvent t query (extract_message_text resp),
     completedEvent t]
  | .error e => [workingEvent t, failedEvent t e]

/-- Outcome of one invocation of `execute` or `cancel`: the events
enqueued in order, the number of `_call_langflow` calls made, and the
exception escaping the method, if any. -/
structure ExecResult where
  events : List AgentEvent
  calls : Nat
  raised : Option String

/-- `LangflowAgentExecutor.execute` (agent_executor.py lines 26 to 104).
`callResult` is the outcome the single `_call_langflow` invocation would
have; `freshTaskId` and `freshContextId` are the uuid4 strings `new_task`
would mint.  A missing message raises before the try block; a missing
current task makes `execute` enqueue a newly built Task first. -/
def execute (ctx : AgentRequestContext) (freshTaskId freshContextId : String)
    (callResult : Except String Json) : ExecResult :=
  match ctx.message with
  | none => { events := [], calls := 0, raised := some "No message in context" }
  | some msg =>
    match ctx.currentTask with
    | some t =>
      { events := tryBody t ctx.userInput callResult, calls := 1, raised := none }
    | none =>
      let t := new_task msg freshTaskId freshContextId
      { events := AgentEvent.newTask t :: tryBody t ctx.userInput callResult,
        calls := 1, raised := none }

/-- `LangflowAgentExecutor.cancel` (agent_executor.py lines 106 to 108):
raise unconditionally, enqueue nothing, call nothing. -/
def cancel (_ctx : AgentRequestContext) : ExecResult :=
  { events := [], calls := 0,
    raised := some "Cancel not supported for Langflow agent" }

/-- Whether an enqueued event carries `final = true`.  A Task object and a
`TaskArtifactUpdateEvent` have no `final` flag, hence are never final. -/
def isFinal : AgentEvent → Bool
  | .statusUpdate _ _ _ _ f => f
  | _ => false

/-- Whether an event is a status event in a terminal state. -/
def isTerminalStatus : AgentEvent → Bool
  | .statusUpdate _ _ .completed _ _ => true
  | .statusUpdate _ _ .failed _ _ => true
  | _ => false

/-- Whether an event is an artifact event. -/
def isArtifact : AgentEvent → Bool
  | .artifactUpdate _ _ _ _ _ => true
  | _ => false

/-- The taskId an enqueued event carries. -/
def eventTaskId : AgentEvent → String
  | .newTask t => t.id
  | .statusUpdate tid _ _ _ _ => tid
  | .artifactUpdate tid _ _ _ _ => tid

/-- The contextId an enqueued event carries. -/
def eventContextId : AgentEvent → String
  | .newTask t => t.contextId
  | .statusUpdate _ cid _ _ _ => cid
  | .artifactUpdate _ cid _ _ _ => cid

/-! ## Lemmas -/

/-- A successful `jGet` lookup determines the corresponding `pyGet`. -/
theorem pyGet_of_jGet {j : Json} {k : String} {v : Json} (d : Json)
    (h : jGet j k = some v) : pyGet j k d = .ok v := by
  cases j <;> simp [jGet] at h
  simp [pyGet, h]

/-- `rstrip` only removes trailing slashes: the original string is the
stripped result followed by some number of slashes. -/
theorem rstripSlash_spec (s : String) :
    ∃ n, s.toList = (rstripSlash s).toList ++ List.replicate n '/' := by
  refine ⟨(s.toList.reverse.takeWhile (fun c => c = '/')).length, ?_⟩
  have h1 : (rstripSlash s).toList =
      (s.toList.reverse.dropWhile (fun c => c = '/')).reverse := rfl
  rw [h1]
  have h2 : s.toList.reverse.takeWhile (fun c => c = '/') =
      List.replicate
        ((s.toList.reverse.takeWhile (fun c => c = '/')).length) '/' := by
    apply List.eq_replicate_of_mem
    intro b hb
    have hp := List.mem_takeWhile_imp hb
    simpa using hp
  calc s.toList = s.toList.reverse.reverse := by rw [List.reverse_reverse]
    _ = (s.toList.reverse.takeWhile (fun c => c = '/') ++
          s.toList.reverse.dropWhile (fun c => c = '/')).reverse := by
        rw [List.takeWhile_append_dropWhile]
    _ = (s.toList.reverse.dropWhile (fun c => c = '/')).reverse ++
          (s.toList.reverse.takeWhile (fun c => c = '/')).reverse := by
        rw [List.reverse_append]
    _ = (s.toList.reverse.dropWhile (fun c => c = '/')).reverse ++
          List.replicate
            ((s.toList.reverse.takeWhile (fun c => c = '/')).length) '/' := by
        rw [h2, List.reverse_replicate]
        simp

/-- On every response of the `missingLeaf` family the try body of the
extractor runs to completion and yields the fixed fallback string. -/
theorem extractBody_of_missingLeaf (response : Json)
    (h : missingLeaf response = true) :
    extractBody response = .ok (.str noMessageFallback) := by
  cases response with
  | null => simp [missingLeaf] at h
  | bool b => simp [missingLeaf] at h
  | num n => simp [missingLeaf] at h
  | str s => simp [missingLeaf] at h
  | arr l => simp [missingLeaf] at h
  | obj fs =>
    cases hfs : fs.lookup "outputs" with
    | none => simp [extractBody, pyGet, hfs, pyTruthy]
    | some v =>
      cases v with
      | null => simp [missingLeaf, hfs] at h
      | bool b => simp [missingLeaf, hfs] at h
      | num n => simp [missingLeaf, hfs] at h
      | str s => simp [missingLeaf, hfs] at h
      | obj os => simp [missingLeaf, hfs] at h
      | arr l =>
        cases l with
        | nil => simp [extractBody, pyGet, hfs, pyTruthy]
        | cons o0 t1 =>
          cases o0 with
          | null => simp [missingLeaf, hfs] at h
          | bool b => simp [missingLeaf, hfs] at h
          | num n => simp [missingLeaf, hfs] at h
          | str s => simp [missingLeaf, hfs] at h
          | arr l2 => simp [missingLeaf, hfs] at h
          | obj gs =>
            cases hgs : gs.lookup "outputs" with
            | none =>
              simp [extractBody, pyGet, hfs, hgs, pyTruthy, pyLen, pyIndex0]
            | some w =>
              cases w with
              | null => simp [missingLeaf, hfs, hgs] at h
              | bool b => simp [missingLeaf, hfs, hgs] at h
              | num n => simp [missingLeaf, hfs, hgs] at h
              | str s => simp [missingLeaf, hfs, hgs] at h
              | obj ws => simp [missingLeaf, hfs, hgs] at h
              | arr l2 =>
                cases l2 with
                | nil =>
                  simp [extractBody, pyGet, hfs, hgs, pyTruthy, pyLen,
                    pyIndex0]
                | cons r0 t2 =>
                  cases r0 with
                  | null => simp [missingLeaf, hfs, hgs] at h
                  | bool b => simp [missingLeaf, hfs, hgs] at h
                  | num n => simp [missingLeaf, hfs, hgs] at h
                  | str s => simp [missingLeaf, hfs, hgs] at h
                  | arr l3 => simp [missingLeaf, hfs, hgs] at h
                  | obj hs =>
                    cases hhs : hs.lookup "results" with
                    | none =>
                      simp [extractBody, pyGet, hfs, hgs, hhs, pyTruthy,
                        pyLen, pyIndex0]
                    | some u =>
                      cases u with
                      | null => simp [missingLeaf, hfs, hgs, hhs] at h
                      | bool b => simp [missingLeaf, hfs, hgs, hhs] at h
                      | num n => simp [missingLeaf, hfs, hgs, hhs] at h
                      | str s => simp [missingLeaf, hfs, hgs, hhs] at h
                      | arr l3 => simp [missingLeaf, hfs, hgs, hhs] at h
                      | obj rs =>
                        cases hrs : rs.lookup "message" with
                        | none =>
                          simp [extractBody, pyGet, hfs, hgs, hhs, hrs,
                            pyTruthy, pyLen, pyIndex0]
                        | some q =>
                          cases q with
                          | null =>
                            simp [missingLeaf, hfs, hgs, hhs, hrs] at h
                          | bool b =>
                            simp [missingLeaf, hfs, hgs, hhs, hrs] at h
                          | num n =>
                            simp [missingLeaf, hfs, hgs, hhs, hrs] at h
                          | str s =>
                            simp [missingLeaf, hfs, hgs, hhs, hrs] at h
                          | arr l3 =>
                            simp [missingLeaf, hfs, hgs, hhs, hrs] at h
                          | obj ms =>
                            cases hms : ms.lookup "text" with
                            | none =>
                              simp [extractBody, pyGet, hfs, hgs, hhs, hrs,
                                hms, pyTruthy, pyLen, pyIndex0]
                            | some z =>
                              cases z with
                              | null =>
                                simp [missingLeaf, hfs, hgs, hhs, hrs,
                                  hms] at h
                              | bool b =>
                                simp [missingLeaf, hfs, hgs, hhs, hrs,
                                  hms] at h
                              | num n =>
                                simp [missingLeaf, hfs, hgs, hhs, hrs,
                                  hms] at h
                              | arr l3 =>
                                simp [missingLeaf, hfs, hgs, hhs, hrs,
                                  hms] at h
                              | obj zs =>
                                simp [missingLeaf, hfs, hgs, hhs, hrs,
                                  hms] at h
                              | str s =>
                                cases hs0 : decEq s "" with
                                | isTrue he =>
                                  subst he
                                  simp [extractBody, pyGet, hfs, hgs, hhs,
                                    hrs, hms, pyTruthy, pyLen, pyIndex0]
                                | isFalse hne =>
                                  simp [missingLeaf, hfs, hgs, hhs, hrs,
                                    hms, hne] at h

/-! ## Claims -/

/-- Claim C5: for every response in which
`outputs[0].outputs[0].results.message.text` is present and equal to a
non-empty string `S`, `_extract_message_text` returns exactly `S`. -/
theorem extract_returns_leaf_text
    (response o0 r0 res msg : Json) (t1 t2 : List Json) (S : String)
    (h1 : jGet response "outputs" = some (.arr (o0 :: t1)))
    (h2 : jGet o0 "outputs" = some (.arr (r0 :: t2)))
    (h3 : jGet r0 "results" = some res)
    (h4 : jGet res "message" = some msg)
    (h5 : jGet msg "text" = some (.str S))
    (hS : S ≠ "") :
    extract_message_text response = .str S := by
  have e1 := pyGet_of_jGet (Json.arr []) h1
  have e2 := pyGet_of_jGet (Json.arr []) h2
  have e3 := pyGet_of_jGet (Json.obj []) h3
  have e4 := pyGet_of_jGet (Json.obj []) h4
  have e5 := pyGet_of_jGet (Json.str "") h5
  simp [extract_message_text, extractBody, e1, e2, e3, e4, e5,
    pyTruthy, pyLen, pyIndex0, hS]

/-- A concrete result following the leaf chain of the sample scenario. -/
def sampleR0 : Json :=
  .obj [("results", .obj [("message", .obj [("text", .str "8")])])]

/-- A concrete first output group of the sample scenario. -/
def sampleO0 : Json := .obj [("outputs", .arr [sampleR0])]

/-- The sample response of the spec scenario, carrying leaf text `8`. -/
def sampleResponse : Json := .obj [("outputs", .arr [sampleO0])]

/-- Witness for claim C5 at the sample response. -/
theorem extract_returns_leaf_text_witness :
    jGet sampleResponse "outputs" = some (.arr [sampleO0]) ∧
    jGet sampleO0 "outputs" = some (.arr [sampleR0]) ∧
    jGet sampleR0 "results" =
      some (.obj [("message", .obj [("text", .str "8")])]) ∧
    jGet (.obj [("message", .obj [("text", .str "8")])]) "message" =
      some (.obj [("text", .str "8")]) ∧
    jGet (.obj [("text", .str "8")]) "text" = some (.str "8") ∧
    extract_message_text sampleResponse = .str "8" :=
  ⟨rfl, rfl, rfl, rfl, rfl,
    extract_returns_leaf_text sampleResponse sampleO0 sampleR0
      (.obj [("message", .obj [("text", .str "8")])])
      (.obj [("text", .str "8")]) [] [] "8"
      rfl rfl rfl rfl rfl (by decide)⟩

/-- Claim C6: the extractor is total: on every response of the
missing-field family it returns the fixed fallback string, and whenever
navigation raises it returns the fallback embedding the error
description instead of propagating. -/
theorem extract_total_with_fallbacks (response : Json) :
    (missingLeaf response = true →
      extract_message_text response = .str noMessageFallback) ∧
    (∀ e, extractBody response = .error e →
      extract_message_text response =
        .str ("Error extracting response: " ++ e)) := by
  constructor
  · intro h
    have hb := extractBody_of_missingLeaf response h
    simp [extract_message_text, hb]
  · intro e he
    simp [extract_message_text, he]

/-- Witness for claim C6: an empty object hits the fixed fallback, and a
bare array raises inside navigation and hits the error fallback. -/
theorem extract_total_with_fallbacks_witness :
    missingLeaf (.obj []) = true ∧
    extract_message_text (.obj []) = .str noMessageFallback ∧
    extractBody (.arr []) =
      .error "AttributeError: no method get, key outputs" ∧
    extract_message_text (.arr []) =
      .str ("Error extracting response: " ++
        "AttributeError: no method get, key outputs") :=
  ⟨rfl, (extract_total_with_fallbacks (.obj [])).1 rfl, rfl,
    (extract_total_with_fallbacks (.arr [])).2 _ rfl⟩

/-- Counterexample to claim C7 as stated: a 300 response is outside the
2xx range, yet `_call_langflow` does not fail: `raise_for_status` only
raises for 4xx and 5xx statuses, so the parsed JSON body is returned. -/
theorem call_langflow_non2xx_counterexample :
    ¬ (200 ≤ (300 : Nat) ∧ (300 : Nat) < 300) ∧
    callLangflowOnResponse
      { statusCode := 300, jsonBody := .ok (.obj []) } = .ok (.obj []) :=
  ⟨by decide, rfl⟩

/-- Claim C7 amended: for every HTTP response whose status code is 4xx or
5xx, `_call_langflow` fails with a transport error and never returns a
parsed JSON result. -/
theorem call_langflow_4xx5xx_fails (r : HttpResponse)
    (h4 : 400 ≤ r.statusCode) (h6 : r.statusCode < 600) :
    ∃ e, callLangflowOnResponse r = .error e := by
  by_cases h5 : r.statusCode < 500
  · simp [callLangflowOnResponse, raise_for_status, h4, h5]
  · have h5a : 500 ≤ r.statusCode := Nat.le_of_not_lt h5
    simp [callLangflowOnResponse, raise_for_status, h5, h5a, h6]

/-- Witness for amended claim C7 at a 500 response with a JSON body. -/
theorem call_langflow_4xx5xx_fails_witness :
    400 ≤ (500 : Nat) ∧ (500 : Nat) < 600 ∧
    ∃ e, callLangflowOnResponse
      { statusCode := 500, jsonBody := .ok .null } = .error e :=
  ⟨by decide, by decide,
    call_langflow_4xx5xx_fails
      { statusCode := 500, jsonBody := .ok .null } (by decide) (by decide)⟩

/-- Counterexample to claim C8 as stated: construction modifies the URL:
a configured URL ending in a slash is stored, and then POSTed to, with
the trailing slash stripped, so the POST does not go to the URL as given. -/
theorem post_url_counterexample :
    mkExecutor "http://example.com/" none =
      .ok { langflow_url := "http://example.com", api_key := none } ∧
    postUrl { langflow_url := "http://example.com", api_key := none } ≠
      "http://example.com/" := by
  constructor
  · rfl
  · decide

/-- Claim C8 amended: the single POST goes to the configured URL with its
trailing slashes removed; nothing is appended and nothing else changes
(the original URL is the POST URL followed by zero or more slashes). -/
theorem post_url_is_rstripped_config (url : String) (key : Option String)
    (ex : ExecutorState) (h : mkExecutor url key = .ok ex) :
    postUrl ex = rstripSlash url ∧
    ∃ n, url.toList = (postUrl ex).toList ++ List.replicate n '/' := by
  have hex : ex = { langflow_url := rstripSlash url, api_key := key } := by
    by_cases hu : url = ""
    · simp [mkExecutor, hu] at h
    · simp [mkExecutor, hu] at h
      exact h.symm
  subst hex
  refine ⟨rfl, ?_⟩
  exact rstripSlash_spec url

/-- Witness for amended claim C8 at a URL with two trailing slashes. -/
theorem post_url_is_rstripped_config_witness :
    mkExecutor "http://h//" none =
      .ok { langflow_url := "http://h", api_key := none } ∧
    postUrl { langflow_url := "http://h", api_key := none } =
      rstripSlash "http://h//" ∧
    ∃ n, "http://h//".toList =
      (postUrl { langflow_url := "http://h", api_key := none }).toList ++
        List.replicate n '/' :=
  ⟨rfl,
    (post_url_is_rstripped_config "http://h//" none _ rfl).1,
    (post_url_is_rstripped_config "http://h//" none _ rfl).2⟩

/-- Claim C9: every call to `cancel` fails (raising the unsupported
cancellation exception), enqueues no event, and makes no workflow call,
regardless of the request context. -/
theorem cancel_always_fails_silently (ctx : AgentRequestContext) :
    (cancel ctx).raised = some "Cancel not supported for Langflow agent" ∧
    (cancel ctx).events = [] ∧ (cancel ctx).calls = 0 :=
  ⟨rfl, rfl, rfl⟩

/-- When the context carries a message, `execute` reduces to the try body
(and the Task creation when no current task exists); shared by the
orchestrator claims below. -/
theorem execute_events_eq (ctx : AgentRequestContext) (m : InboundMessage)
    (ftid fcid : String) (cr : Except String Json)
    (hm : ctx.message = some m) :
    execute ctx ftid fcid cr =
      match ctx.currentTask with
      | some t =>
        { events := tryBody t ctx.userInput cr, calls := 1, raised := none }
      | none =>
        { events := AgentEvent.newTask (new_task m ftid fcid) ::
            tryBody (new_task m ftid fcid) ctx.userInput cr,
          calls := 1, raised := none } := by
  unfold execute
  rw [hm]

/-- A concrete inbound message used by witnesses and counterexamples. -/
def sampleMessage : InboundMessage :=
  { taskId := some "t1", contextId := some "c1" }

/-- A concrete request context carrying a message but no current task. -/
def sampleCtx : AgentRequestContext :=
  { message := some sampleMessage, currentTask := none, userInput := "q" }

/-- A concrete request context carrying no inbound message. -/
def noMsgCtx : AgentRequestContext :=
  { message := none, currentTask := none, userInput := "" }

/-- Counterexample to claim C1 as stated: with no inbound message in the
request context `execute` raises `No message in context` outward, and no
failed terminal event (indeed no event at all) is enqueued. -/
theorem execute_raises_without_message :
    (execute noMsgCtx "f1" "f2" (.ok .null)).raised =
      some "No message in context" ∧
    (execute noMsgCtx "f1" "f2" (.ok .null)).events = [] :=
  ⟨rfl, rfl⟩

/-- Claim C1 amended: when the request context carries a message,
`execute` never raises outward: every failure in the execution body is
caught and the run ends with the completed or the failed terminal status
event.  When the context carries no message, `execute` instead raises
that precondition outward, enqueueing nothing. -/
theorem execute_never_raises_with_message (ctx : AgentRequestContext)
    (m : InboundMessage) (ftid fcid : String) (cr : Except String Json)
    (hm : ctx.message = some m) :
    (execute ctx ftid fcid cr).raised = none ∧
    ∃ t, (∃ resp, cr = .ok resp ∧
            (execute ctx ftid fcid cr).events.getLast? =
              some (completedEvent t)) ∨
         (∃ e, cr = .error e ∧
            (execute ctx ftid fcid cr).events.getLast? =
              some (failedEvent t e)) := by
  rw [execute_events_eq ctx m ftid fcid cr hm]
  rcases hct : ctx.currentTask with _ | t
  · rcases cr with e | resp
    · exact ⟨rfl, new_task m ftid fcid, .inr ⟨e, rfl, rfl⟩⟩
    · exact ⟨rfl, new_task m ftid fcid, .inl ⟨resp, rfl, rfl⟩⟩
  · rcases cr with e | resp
    · exact ⟨rfl, t, .inr ⟨e, rfl, rfl⟩⟩
    · exact ⟨rfl, t, .inl ⟨resp, rfl, rfl⟩⟩

/-- Witness for amended claim C1 at a concrete failing call. -/
theorem execute_never_raises_with_message_witness :
    sampleCtx.message = some sampleMessage ∧
    (execute sampleCtx "f1" "f2" (.error "boom")).raised = none :=
  ⟨rfl,
    (execute_never_raises_with_message sampleCtx sampleMessage
      "f1" "f2" (.error "boom") rfl).1⟩

/-- Counterexample to claim C2 as stated: a successful run on a context
with no current task enqueues four events, the newly created Task first,
not exactly the three events working, artifact, completed. -/
theorem success_sequence_counterexample :
    (execute sampleCtx "f1" "f2" (.ok (.obj []))).events.length = 4 ∧
    (execute sampleCtx "f1" "f2" (.ok (.obj []))).events.length ≠ 3 ∧
    (execute sampleCtx "f1" "f2" (.ok (.obj []))).events.head? =
      some (AgentEvent.newTask { id := "t1", contextId := "c1" }) :=
  ⟨rfl, by decide, rfl⟩

/-- Claim C2 amended: when the workflow call succeeds, the events
enqueued after the initial Task event (present exactly when the context
has no current task, absent otherwise) are exactly working with
final false, then the artifact carrying the extracted text, then
completed with final true, and every enqueued event carries the task
identifier and context identifier of the task. -/
theorem success_event_sequence (ctx : AgentRequestContext)
    (m : InboundMessage) (ftid fcid : String) (resp : Json)
    (hm : ctx.message = some m) :
    ∃ t pre,
      (execute ctx ftid fcid (.ok resp)).events =
        pre ++ [workingEvent t,
          artifactEvent t ctx.userInput (extract_message_text resp),
          completedEvent t] ∧
      ((ctx.currentTask = some t ∧ pre = []) ∨
        (ctx.currentTask = none ∧ pre = [AgentEvent.newTask t])) ∧
      (∀ ev ∈ (execute ctx ftid fcid (.ok resp)).events,
        eventTaskId ev = t.id ∧ eventContextId ev = t.contextId) ∧
      isFinal (workingEvent t) = false ∧
      isFinal (artifactEvent t ctx.userInput (extract_message_text resp)) =
        false ∧
      isFinal (completedEvent t) = true := by
  rw [execute_events_eq ctx m ftid fcid (.ok resp) hm]
  rcases hct : ctx.currentTask with _ | t
  · refine ⟨new_task m ftid fcid,
      [AgentEvent.newTask (new_task m ftid fcid)], rfl,
      .inr ⟨rfl, rfl⟩, ?_, rfl, rfl, rfl⟩
    intro ev hev
    simp only [tryBody, List.mem_cons, List.not_mem_nil, or_false] at hev
    rcases hev with h | h | h | h <;> subst h <;>
      simp [workingEvent, artifactEvent, completedEvent, eventTaskId,
        eventContextId]
  · refine ⟨t, [], rfl, .inl ⟨rfl, rfl⟩, ?_, rfl, rfl, rfl⟩
    intro ev hev
    simp only [tryBody, List.mem_cons, List.not_mem_nil, or_false] at hev
    rcases hev with h | h | h <;> subst h <;>
      simp [workingEvent, artifactEvent, completedEvent, eventTaskId,
        eventContextId]

/-- Witness for amended claim C2 at a concrete successful run. -/
theorem success_event_sequence_witness :
    sampleCtx.message = some sampleMessage ∧
    ∃ t pre,
      (execute sampleCtx "f1" "f2" (.ok (.obj []))).events =
        pre ++ [workingEvent t,
          artifactEvent t sampleCtx.userInput
            (extract_message_text (.obj [])),
          completedEvent t] :=
  ⟨rfl, by
    obtain ⟨t, pre, h1, -⟩ :=
      success_event_sequence sampleCtx sampleMessage "f1" "f2"
        (.obj []) rfl
    exact ⟨t, pre, h1⟩⟩

/-- Counterexample to claim C3 as stated: a failing run on a context with
no current task enqueues three events, the newly created Task first, not
exactly the two events working then failed. -/
theorem failure_sequence_counterexample :
    (execute sampleCtx "f1" "f2" (.error "boom")).events.length = 3 ∧
    (execute sampleCtx "f1" "f2" (.error "boom")).events.length ≠ 2 ∧
    (execute sampleCtx "f1" "f2" (.error "boom")).events.head? =
      some (AgentEvent.newTask { id := "t1", contextId := "c1" }) :=
  ⟨rfl, by decide, rfl⟩

/-- Claim C3 amended: when the workflow call raises, the events enqueued
after the initial Task event (present exactly when the context has no
current task, absent otherwise) are exactly working with final false
then failed with final true; no artifact event is enqueued, and the
failed message text includes the description of the underlying error. -/
theorem failure_event_sequence (ctx : AgentRequestContext)
    (m : InboundMessage) (ftid fcid : String) (err : String)
    (hm : ctx.message = some m) :
    ∃ t pre,
      (execute ctx ftid fcid (.error err)).events =
        pre ++ [workingEvent t, failedEvent t err] ∧
      ((ctx.currentTask = some t ∧ pre = []) ∨
        (ctx.currentTask = none ∧ pre = [AgentEvent.newTask t])) ∧
      (∀ ev ∈ (execute ctx ftid fcid (.error err)).events,
        isArtifact ev = false) ∧
      isFinal (workingEvent t) = false ∧
      isFinal (failedEvent t err) = true ∧
      ∃ mt, failedEvent t err =
        AgentEvent.statusUpdate t.id t.contextId .failed (some mt) true ∧
        ∃ s, mt.text = s ++ err := by
  rw [execute_events_eq ctx m ftid fcid (.error err) hm]
  rcases hct : ctx.currentTask with _ | t
  · refine ⟨new_task m ftid fcid,
      [AgentEvent.newTask (new_task m ftid fcid)], rfl,
      .inr ⟨rfl, rfl⟩, ?_, rfl, rfl,
      ⟨_, rfl, "Error processing request: ", rfl⟩⟩
    intro ev hev
    simp only [tryBody, List.mem_cons, List.not_mem_nil, or_false] at hev
    rcases hev with h | h | h <;> subst h <;>
      simp [workingEvent, failedEvent, isArtifact]
  · refine ⟨t, [], rfl, .inl ⟨rfl, rfl⟩, ?_, rfl, rfl,
      ⟨_, rfl, "Error processing request: ", rfl⟩⟩
    intro ev hev
    simp only [tryBody, List.mem_cons, List.not_mem_nil, or_false] at hev
    rcases hev with h | h <;> subst h <;>
      simp [workingEvent, failedEvent, isArtifact]

/-- Witness for amended claim C3 at a concrete failing run. -/
theorem failure_event_sequence_witness :
    sampleCtx.message = some sampleMessage ∧
    ∃ t pre,
      (execute sampleCtx "f1" "f2" (.error "boom")).events =
        pre ++ [workingEvent t, failedEvent t "boom"] :=
  ⟨rfl, by
    obtain ⟨t, pre, h1, -⟩ :=
      failure_event_sequence sampleCtx sampleMessage "f1" "f2" "boom" rfl
    exact ⟨t, pre, h1⟩⟩

/-- Counterexample to claim C4 as stated: an execution whose context
carries no message makes zero workflow calls (not exactly one) and
enqueues zero final events. -/
theorem single_call_counterexample :
    (execute noMsgCtx "f1" "f2" (.ok .null)).calls = 0 ∧
    (execute noMsgCtx "f1" "f2" (.ok .null)).calls ≠ 1 ∧
    ((execute noMsgCtx "f1" "f2" (.ok .null)).events.filter
      isFinal).length = 0 :=
  ⟨rfl, by decide, rfl⟩

/-- Claim C4 amended: for every execution whose request context carries a
message, exactly one workflow call is made and exactly one enqueued
event has final true; that final event is a status event in state
completed or failed and never an artifact event.  An execution whose
context has no message makes no call and enqueues nothing. -/
theorem single_call_single_terminal (ctx : AgentRequestContext)
    (m : InboundMessage) (ftid fcid : String) (cr : Except String Json)
    (hm : ctx.message = some m) :
    (execute ctx ftid fcid cr).calls = 1 ∧
    ((execute ctx ftid fcid cr).events.filter isFinal).length = 1 ∧
    ∀ ev ∈ (execute ctx ftid fcid cr).events, isFinal ev = true →
      isTerminalStatus ev = true ∧ isArtifact ev = false := by
  rw [execute_events_eq ctx m ftid fcid cr hm]
  rcases hct : ctx.currentTask with _ | t
  · rcases cr with e | resp
    · refine ⟨rfl, ?_, ?_⟩
      · simp [tryBody, List.filter, workingEvent, failedEvent, isFinal]
      · intro ev hev hfin
        simp only [tryBody, List.mem_cons, List.not_mem_nil,
          or_false] at hev
        rcases hev with h | h | h <;> subst h <;>
          simp_all [workingEvent, failedEvent, isFinal,
            isTerminalStatus, isArtifact]
    · refine ⟨rfl, ?_, ?_⟩
      · simp [tryBody, List.filter, workingEvent, artifactEvent,
          completedEvent, isFinal]
      · intro ev hev hfin
        simp only [tryBody, List.mem_cons, List.not_mem_nil,
          or_false] at hev
        rcases hev with h | h | h | h <;> subst h <;>
          simp_all [workingEvent, artifactEvent, completedEvent, isFinal,
            isTerminalStatus, isArtifact]
  · rcases cr with e | resp
    · refine ⟨rfl, ?_, ?_⟩
      · simp [tryBody, List.filter, workingEvent, failedEvent, isFinal]
      · intro ev hev hfin
        simp only [tryBody, List.mem_cons, List.not_mem_nil,
          or_false] at hev
        rcases hev with h | h <;> subst h <;>
          simp_all [workingEvent, failedEvent, isFinal,
            isTerminalStatus, isArtifact]
    · refine ⟨rfl, ?_, ?_⟩
      · simp [tryBody, List.filter, workingEvent, artifactEvent,
          completedEvent, isFinal]
      · intro ev hev hfin
        simp only [tryBody, List.mem_cons, List.not_mem_nil,
          or_false] at hev
        rcases hev with h | h | h <;> subst h <;>
          simp_all [workingEvent, artifactEvent, completedEvent, isFinal,
            isTerminalStatus, isArtifact]

/-- Witness for amended claim C4 at a concrete successful run. -/
theorem single_call_single_terminal_witness :
    sampleCtx.message = some sampleMessage ∧
    (execute sampleCtx "f1" "f2" (.ok (.obj []))).calls = 1 ∧
    ((execute sampleCtx "f1" "f2" (.ok (.obj []))).events.filter
      isFinal).length = 1 :=
  ⟨rfl,
    (single_call_single_terminal sampleCtx sampleMessage "f1" "f2"
      (.ok (.obj [])) rfl).1,
    (single_call_single_terminal sampleCtx sampleMessage "f1" "f2"
      (.ok (.obj [])) rfl).2.1⟩

/-- Claim C10: when the request context carries a message but no current
task, `execute` builds a new Task from the message and enqueues it as
the first event, before the working status event. -/
theorem new_task_enqueued_first (ctx : AgentRequestContext)
    (m : InboundMessage) (ftid fcid : String) (cr : Except String Json)
    (hm : ctx.message = some m) (hct : ctx.currentTask = none) :
    ∃ rest, (execute ctx ftid fcid cr).events =
      AgentEvent.newTask (new_task m ftid fcid) ::
        workingEvent (new_task m ftid fcid) :: rest := by
  rw [execute_events_eq ctx m ftid fcid cr hm, hct]
  rcases cr with e | resp
  · exact ⟨_, rfl⟩
  · exact ⟨_, rfl⟩

/-- Witness for claim C10 at a concrete run. -/
theorem new_task_enqueued_first_witness :
    sampleCtx.message = some sampleMessage ∧
    sampleCtx.currentTask = none ∧
    ∃ rest, (execute sampleCtx "f1" "f2" (.ok .null)).events =
      AgentEvent.newTask (new_task sampleMessage "f1" "f2") ::
        workingEvent (new_task sampleMessage "f1" "f2") :: rest :=
  ⟨rfl, rfl,
    new_task_enqueued_first sampleCtx sampleMessage "f1" "f2"
      (.ok .null) rfl rfl⟩
